import Mathlib

/-
Shallow embedding of the trade-performance simulation core of the
backtester repository, file src/services/analytics/calculations/portfolio.py,
over exact rational arithmetic.

Conventions of the embedding:
- Python floats are modelled as rationals; all accounting identities are
  stated under exact arithmetic.
- Calendar timestamps are modelled as integer day numbers; the pandas
  day-frequency date_range becomes the integer interval [start, end].
- A trade table (pandas DataFrame) is a list of trade records; the frame's
  integer index labels are recovered by enumerating the list, so row i has
  label i.
- Fallible evaluation is modelled with Option: the embedding returns none
  where the source raises (pandas date_range on an empty frame, scalar
  division by zero) or where exact-rational semantics stop matching the
  source (numpy division of a nonzero float by zero yields inf rather than
  raising; those inputs are left outside the model).
- The dict of currently open positions is an association list keyed by row
  label; exits iterate over the trade table, not over the dict, so the
  association-list representation is order-faithful.
-/

namespace Backtester

/-- Position direction, source column position_type with values long/short. -/
inductive PositionType where
  | long : PositionType
  | short : PositionType
deriving DecidableEq, Inhabited

/-- One row of the input trade table (columns read by portfolio.py). -/
structure Trade where
  entry_date : Int
  entry_price : Rat
  exit_date : Int
  exit_price : Rat
  position_type : PositionType
deriving DecidableEq, Inhabited

/-- Trading configuration dictionary (the keys read by portfolio.py). -/
structure Config where
  initial_capital : Rat
  position_size_percent : Rat
  fixed_commission : Rat
  variable_fee : Rat
  bid_ask_spread : Rat
deriving DecidableEq, Inhabited

/-- portfolio.py lines 5-16: calculate_trading_costs. -/
def calculate_trading_costs (position_size exit_value : Rat) (config : Config) : Rat × Rat :=
  let entry_costs :=
    config.fixed_commission +
      position_size * config.variable_fee +
      position_size * config.bid_ask_spread
  let exit_costs :=
    config.fixed_commission +
      exit_value * config.variable_fee +
      exit_value * config.bid_ask_spread
  (entry_costs, exit_costs)

/-- Itemized cost dictionary with keys commission, variable, spread
(the key variable is a Lean keyword, rendered var_fee here). -/
structure CostBreakdown where
  commission : Rat
  var_fee : Rat
  spread : Rat
deriving DecidableEq, Inhabited

/-- Python sum of the breakdown dict values. -/
def CostBreakdown.total (b : CostBreakdown) : Rat :=
  b.commission + b.var_fee + b.spread

/-- Entry of the active_positions dict (portfolio.py lines 70-80). -/
structure OpenPosition where
  units : Rat
  position_size : Rat
  entry_price : Rat
  position_type : PositionType
  entry_costs : CostBreakdown
deriving DecidableEq, Inhabited

/-- Record appended to trade_performances (portfolio.py lines 109-114). -/
structure TradePerformance where
  trade_id : Nat
  raw_performance : Rat
  cost_impact : Rat
  net_performance : Rat
deriving DecidableEq, Inhabited

/-- Record appended to trade_costs (portfolio.py lines 116-121). -/
structure TradeCost where
  trade_id : Nat
  entry : CostBreakdown
  exit : CostBreakdown
  total : Rat
deriving DecidableEq, Inhabited

/-- The mutable simulation state of calculate_trade_performance_timeseries:
capital accumulators, the open-position dict and the three output lists
(portfolio.py lines 37-43). -/
structure SimState where
  available_capital : Rat
  invested_capital : Rat
  active_positions : List (Nat × OpenPosition)
  skipped_trades : List Nat
  trade_performances : List TradePerformance
  trade_costs : List TradeCost
deriving DecidableEq, Inhabited

/-- One per-day row written into ts_data inside the loop
(portfolio.py lines 131-136). -/
structure Snapshot where
  date : Int
  available_capital : Rat
  invested_capital : Rat
  total_capital : Rat
  daily_pnl : Rat
  daily_costs : Rat
  active_positions : Nat
deriving DecidableEq, Inhabited

/-- A ts_data row after the post-loop cumulative columns are added
(portfolio.py lines 138-141). -/
structure DayRow where
  date : Int
  available_capital : Rat
  invested_capital : Rat
  total_capital : Rat
  daily_pnl : Rat
  daily_costs : Rat
  active_positions : Nat
  cumulative_pnl : Rat
  cumulative_costs : Rat
  net_performance : Rat
  performance_pct : Rat
deriving DecidableEq, Inhabited

/-- Ordering used by df.sort_values on the columns entry_date, exit_date
(portfolio.py line 33): lexicographic on the pair of dates. -/
def rowLe (a b : Nat × Trade) : Prop :=
  a.2.entry_date < b.2.entry_date ∨
    (a.2.entry_date = b.2.entry_date ∧ a.2.exit_date ≤ b.2.exit_date)

instance rowLe.decidable : DecidableRel rowLe := by
  intro a b
  unfold rowLe
  infer_instance

instance rowLe.total : IsTotal (Nat × Trade) rowLe := by
  constructor
  intro a b
  unfold rowLe
  omega

instance rowLe.trans : IsTrans (Nat × Trade) rowLe := by
  constructor
  intro a b c hab hbc
  unfold rowLe at hab hbc ⊢
  omega

/-- The sorted, index-labelled trade table: pandas keeps the original
integer index labels while reordering rows, modelled by enumerating the
list and sorting the labelled rows by (entry_date, exit_date).
A multi-column sort_values performs a stable lexicographic sort, so rows
equal in both keys keep their original relative order; the stable
insertion sort matches that behaviour. -/
def sortRows (df : List Trade) : List (Nat × Trade) :=
  List.insertionSort rowLe df.enum

/-- pandas date_range(start, end, freq=day) as the integer interval;
empty when end < start, matching pandas. -/
def dateRange (start_date end_date : Int) : List Int :=
  (List.range (end_date + 1 - start_date).toNat).map (fun i => start_date + i)

/-- df entry_date min (portfolio.py line 34); default 0 is never used
because the empty table is rejected earlier. -/
def minEntryDate : List Trade → Int
  | [] => 0
  | t :: rest => rest.foldl (fun m tr => min m tr.entry_date) t.entry_date

/-- df exit_date max (portfolio.py line 34). -/
def maxExitDate : List Trade → Int
  | [] => 0
  | t :: rest => rest.foldl (fun m tr => max m tr.exit_date) t.exit_date

/-- The labelled rows whose entry_date falls on the given day
(portfolio.py line 46). -/
def dayEntriesOf (rows : List (Nat × Trade)) (date : Int) : List (Nat × Trade) :=
  rows.filter (fun it => decide (it.2.entry_date = date))

/-- The labelled rows whose exit_date falls on the given day
(portfolio.py line 47). -/
def dayExitsOf (rows : List (Nat × Trade)) (date : Int) : List (Nat × Trade) :=
  rows.filter (fun it => decide (it.2.exit_date = date))

/-- Dict lookup on the positions map, keyed by row label (the membership
test idx not in active_positions plus the subscript access). -/
def lookupPos (k : Nat) : List (Nat × OpenPosition) → Option OpenPosition
  | [] => none
  | (i, p) :: rest => if i = k then some p else lookupPos k rest

/-- Python del on the positions dict, keyed by row label. -/
def eraseKey (k : Nat) : List (Nat × OpenPosition) → List (Nat × OpenPosition)
  | [] => []
  | (i, p) :: rest => if i = k then rest else (i, p) :: eraseKey k rest

/-- Entry loop of one simulated day (portfolio.py lines 53-80).
Threads the state and the daily_entry_costs accumulator through the
day's new trades in their sorted-table order. Returns none when a trade
passing the sizing gate has entry_price = 0: there the source divides a
float by zero (producing a non-finite value), which the exact model does
not represent. -/
def runEntries (config : Config) :
    List (Nat × Trade) → SimState → Rat → Option (SimState × Rat)
  | [], s, daily_entry_costs => some (s, daily_entry_costs)
  | (idx, trade) :: rest, s, daily_entry_costs =>
    let position_size :=
      min (s.available_capital * config.position_size_percent) s.available_capital
    if position_size ≤ 0 then
      runEntries config rest
        { s with skipped_trades := s.skipped_trades ++ [idx] } daily_entry_costs
    else if trade.entry_price = 0 then
      none
    else
      let units := position_size / trade.entry_price
      let entry_costs := (calculate_trading_costs position_size 0 config).1
      if s.available_capital ≤ entry_costs then
        runEntries config rest
          { s with skipped_trades := s.skipped_trades ++ [idx] } daily_entry_costs
      else
        runEntries config rest
          { s with
            available_capital := s.available_capital - (position_size + entry_costs)
            invested_capital := s.invested_capital + position_size
            active_positions := s.active_positions ++
              [(idx,
                { units := units
                  position_size := position_size
                  entry_price := trade.entry_price
                  position_type := trade.position_type
                  entry_costs :=
                    { commission := config.fixed_commission
                      var_fee := position_size * config.variable_fee
                      spread := position_size * config.bid_ask_spread } })] }
          (daily_entry_costs + entry_costs)

/-- Exit loop of one simulated day (portfolio.py lines 82-127).
Threads the state plus the daily_exit_costs and daily_pnl accumulators.
Returns none when the cost_impact denominator
initial_capital * position_size_percent is zero: there the source raises
ZeroDivisionError (scalar float division, portfolio.py line 107). -/
def runExits (config : Config) :
    List (Nat × Trade) → SimState → Rat → Rat → Option (SimState × Rat × Rat)
  | [], s, daily_exit_costs, daily_pnl => some (s, daily_exit_costs, daily_pnl)
  | (idx, trade) :: rest, s, daily_exit_costs, daily_pnl =>
    match lookupPos idx s.active_positions with
    | none => runExits config rest s daily_exit_costs daily_pnl
    | some pos =>
      if config.initial_capital * config.position_size_percent = 0 then none
      else
        let exit_value := pos.units * trade.exit_price
        let exit_costs := (calculate_trading_costs pos.position_size exit_value config).2
        let pnl :=
          if pos.position_type = PositionType.long then
            (trade.exit_price - pos.entry_price) * pos.units
          else
            (pos.entry_price - trade.exit_price) * pos.units
        let raw_performance :=
          if pos.position_type = PositionType.long then
            (trade.exit_price - pos.entry_price) / pos.entry_price
          else
            (pos.entry_price - trade.exit_price) / pos.entry_price
        let exit_cost_breakdown : CostBreakdown :=
          { commission := config.fixed_commission
            var_fee := exit_value * config.variable_fee
            spread := exit_value * config.bid_ask_spread }
        let total_costs := pos.entry_costs.total + exit_cost_breakdown.total
        let cost_impact :=
          total_costs / (config.initial_capital * config.position_size_percent)
        runExits config rest
          { s with
            trade_performances := s.trade_performances ++
              [{ trade_id := idx
                 raw_performance := raw_performance
                 cost_impact := cost_impact
                 net_performance := raw_performance - cost_impact }]
            trade_costs := s.trade_costs ++
              [{ trade_id := idx
                 entry := pos.entry_costs
                 exit := exit_cost_breakdown
                 total := total_costs }]
            invested_capital := s.invested_capital - pos.position_size
            available_capital :=
              s.available_capital + (pos.position_size + pnl - exit_costs)
            active_positions := eraseKey idx s.active_positions }
          (daily_exit_costs + exit_costs) (daily_pnl + pnl)

/-- The day loop (portfolio.py lines 45-136): per day, run the entry loop
then the exit loop, then append the day's snapshot row. The rows argument
is the labelled trade table in the order the loops iterate it. -/
def runDays (config : Config) (rows : List (Nat × Trade)) :
    List Int → SimState → List Snapshot → Option (SimState × List Snapshot)
  | [], s, snaps => some (s, snaps)
  | date :: restDays, s, snaps =>
    match runEntries config (dayEntriesOf rows date) s 0 with
    | none => none
    | some (s1, daily_entry_costs) =>
      match runExits config (dayExitsOf rows date) s1 0 0 with
      | none => none
      | some (s2, daily_exit_costs, daily_pnl) =>
        runDays config rows restDays s2 (snaps ++
          [{ date := date
             available_capital := s2.available_capital
             invested_capital := s2.invested_capital
             total_capital := s2.available_capital + s2.invested_capital
             daily_pnl := daily_pnl
             daily_costs := daily_entry_costs + daily_exit_costs
             active_positions := s2.active_positions.length }])

/-- Initial simulation state (portfolio.py lines 37-43). -/
def initState (config : Config) : SimState :=
  { available_capital := config.initial_capital
    invested_capital := 0
    active_positions := []
    skipped_trades := []
    trade_performances := []
    trade_costs := [] }

/-- Result of the day loop, keeping the final state (which still holds the
internal skipped_trades list) next to the snapshot rows. -/
structure SimResult where
  state : SimState
  snapshots : List Snapshot
deriving DecidableEq, Inhabited

/-- The simulation loop of calculate_trade_performance_timeseries up to but
not including the cumulative columns. Returns none on the empty table,
where pandas date_range raises ValueError on NaT bounds
(portfolio.py line 34). -/
def runSimulation (df : List Trade) (config : Config) : Option SimResult :=
  if df.isEmpty then none
  else
    match runDays config (sortRows df)
        (dateRange (minEntryDate df) (maxExitDate df)) (initState config) [] with
    | none => none
    | some (s, snaps) => some { state := s, snapshots := snaps }

/-- Post-loop cumulative columns (portfolio.py lines 138-141), threading the
running sums of daily_pnl and daily_costs. -/
def addCumulative (config : Config) :
    List Snapshot → Rat → Rat → List DayRow
  | [], _, _ => []
  | snap :: rest, cum_pnl, cum_costs =>
    let cum_pnl' := cum_pnl + snap.daily_pnl
    let cum_costs' := cum_costs + snap.daily_costs
    { date := snap.date
      available_capital := snap.available_capital
      invested_capital := snap.invested_capital
      total_capital := snap.total_capital
      daily_pnl := snap.daily_pnl
      daily_costs := snap.daily_costs
      active_positions := snap.active_positions
      cumulative_pnl := cum_pnl'
      cumulative_costs := cum_costs'
      net_performance := cum_pnl' - cum_costs'
      performance_pct := (cum_pnl' - cum_costs') / config.initial_capital } ::
      addCumulative config rest cum_pnl' cum_costs'

/-- The triple returned at portfolio.py line 143: the daily timeseries and
the two per-trade record lists. The internal skipped_trades list is not
part of the return value. -/
structure EngineOutput where
  ts_data : List DayRow
  trade_performances : List TradePerformance
  trade_costs : List TradeCost
deriving DecidableEq, Inhabited

/-- portfolio.py lines 29-143: calculate_trade_performance_timeseries.
Returns none where the source raises, and additionally when
initial_capital = 0, where the source's performance_pct column
(a numpy division by zero, portfolio.py line 141) leaves exact
rational semantics. -/
def calculate_trade_performance_timeseries (df : List Trade) (config : Config) :
    Option EngineOutput :=
  match runSimulation df config with
  | none => none
  | some r =>
    if config.initial_capital = 0 then none
    else
      some { ts_data := addCumulative config r.snapshots 0 0
             trade_performances := r.state.trade_performances
             trade_costs := r.state.trade_costs }

/-- Modelled from the spec: the engine variant the sentence "for every trade
whose entry_date falls on day d, in the table's original row order" would
require, identical to runSimulation except that the table is iterated in
its original row order (no pre-sort). It exists only to be compared with
the source-derived engine. -/
def runSimulation_roworder (df : List Trade) (config : Config) : Option SimResult :=
  if df.isEmpty then none
  else
    match runDays config df.enum
        (dateRange (minEntryDate df) (maxExitDate df)) (initState config) [] with
    | none => none
    | some (s, snaps) => some { state := s, snapshots := snaps }

/-- Modelled from the spec: full row-order engine, the comparison target for
the row-order claim. -/
def calculate_trade_performance_timeseries_roworder (df : List Trade)
    (config : Config) : Option EngineOutput :=
  match runSimulation_roworder df config with
  | none => none
  | some r =>
    if config.initial_capital = 0 then none
    else
      some { ts_data := addCumulative config r.snapshots 0 0
             trade_performances := r.state.trade_performances
             trade_costs := r.state.trade_costs }

/-- Result dictionary of _calculate_metrics (portfolio.py lines 18-27). -/
structure MetricsResult where
  total_trades : Nat
  profitable_trades : Nat
  total_performance : Rat
  avg_performance : Rat
  max_gain : Rat
  max_loss : Rat
  win_rate : Rat
deriving DecidableEq, Inhabited

/-- Python sum over a list of rationals. -/
def listSum (l : List Rat) : Rat := l.foldl (fun a b => a + b) 0

/-- pandas Series max; the empty case is unreachable on the guarded paths. -/
def listMax : List Rat → Rat
  | [] => 0
  | x :: xs => xs.foldl max x

/-- pandas Series min; the empty case is unreachable on the guarded paths. -/
def listMin : List Rat → Rat
  | [] => 0
  | x :: xs => xs.foldl min x

/-- portfolio.py lines 18-27: _calculate_metrics. On an empty series the
source raises ZeroDivisionError computing win_rate (0 / 0), modelled as
none. -/
def _calculate_metrics (performance_series : List Rat) : Option MetricsResult :=
  if performance_series.isEmpty then none
  else
    let profitable := (performance_series.filter (fun v => decide (0 < v))).length
    some { total_trades := performance_series.length
           profitable_trades := profitable
           total_performance := listSum performance_series
           avg_performance := listSum performance_series / performance_series.length
           max_gain := listMax performance_series
           max_loss := listMin performance_series
           win_rate := (profitable : Rat) / performance_series.length }

/-- Per-side totals of the cost breakdown across all trade cost records
(portfolio.py lines 154-166). -/
structure SideBreakdown where
  commission : Rat
  var_fee : Rat
  spread : Rat
  total : Rat
deriving DecidableEq, Inhabited

/-- The costs sub-report (portfolio.py lines 181-188). -/
structure CostsReport where
  total_costs : Rat
  avg_cost_per_trade : Rat
  entry : SideBreakdown
  exit : SideBreakdown
deriving DecidableEq, Inhabited

/-- The portfolio sub-report (portfolio.py lines 189-196). -/
structure PortfolioReport where
  initial_capital : Rat
  final_capital : Rat
  max_capital : Rat
  min_capital : Rat
  current_invested : Rat
  current_available : Rat
deriving DecidableEq, Inhabited

/-- The top-level report dictionary (portfolio.py lines 171-197). -/
structure Report where
  total_trades : Nat
  profitable_days : Nat
  total_days : Nat
  max_invested : Rat
  total_costs : Rat
  final_performance : Rat
  max_drawdown : Rat
  raw_performance : MetricsResult
  net_performance : MetricsResult
  costs : CostsReport
  portfolio_report : PortfolioReport
deriving DecidableEq, Inhabited

/-- portfolio.py lines 145-197: calculate_performance_metrics. Returns none
exactly where the source raises: on an empty timeseries (iloc on position
-1 raises IndexError, line 169), with zero executed trades
(ZeroDivisionError in _calculate_metrics win_rate, line 26, and in
avg_cost_per_trade, line 183), and with initial_capital = 0
(ZeroDivisionError in max_drawdown, line 178). -/
def calculate_performance_metrics (ts_data : List DayRow)
    (trade_performances : List TradePerformance) (trade_costs : List TradeCost)
    (config : Config) : Option Report :=
  if ts_data.isEmpty then none
  else if trade_performances.isEmpty then none
  else if config.initial_capital = 0 then none
  else
    match _calculate_metrics (trade_performances.map (fun t => t.raw_performance)),
        _calculate_metrics (trade_performances.map (fun t => t.net_performance)) with
    | some raw_metrics, some net_metrics =>
      let entry_commission := listSum (trade_costs.map (fun t => t.entry.commission))
      let entry_var := listSum (trade_costs.map (fun t => t.entry.var_fee))
      let entry_spread := listSum (trade_costs.map (fun t => t.entry.spread))
      let exit_commission := listSum (trade_costs.map (fun t => t.exit.commission))
      let exit_var := listSum (trade_costs.map (fun t => t.exit.var_fee))
      let exit_spread := listSum (trade_costs.map (fun t => t.exit.spread))
      let executed_trades := trade_performances.length
      let total_costs := (ts_data.map (fun r => r.cumulative_costs)).getLastD 0
      some
        { total_trades := executed_trades
          profitable_days := (ts_data.filter (fun r => decide (0 < r.daily_pnl))).length
          total_days := ts_data.length
          max_invested := listMax (ts_data.map (fun r => r.invested_capital))
          total_costs := total_costs
          final_performance := (ts_data.map (fun r => r.performance_pct)).getLastD 0
          max_drawdown :=
            (listMin (ts_data.map (fun r => r.total_capital)) - config.initial_capital) /
              config.initial_capital
          raw_performance := raw_metrics
          net_performance := net_metrics
          costs :=
            { total_costs := total_costs
              avg_cost_per_trade := total_costs / (executed_trades : Rat)
              entry :=
                { commission := entry_commission
                  var_fee := entry_var
                  spread := entry_spread
                  total := entry_commission + entry_var + entry_spread }
              exit :=
                { commission := exit_commission
                  var_fee := exit_var
                  spread := exit_spread
                  total := exit_commission + exit_var + exit_spread } }
          portfolio_report :=
            { initial_capital := config.initial_capital
              final_capital := (ts_data.map (fun r => r.total_capital)).getLastD 0
              max_capital := listMax (ts_data.map (fun r => r.total_capital))
              min_capital := listMin (ts_data.map (fun r => r.total_capital))
              current_invested := (ts_data.map (fun r => r.invested_capital)).getLastD 0
              current_available :=
                (ts_data.map (fun r => r.available_capital)).getLastD 0 } }
    | _, _ => none

/-! Concrete inputs used by the scenario claims. -/

/-- Spec Scenario A configuration: initial_capital 1000, half-sizing, no
fees. -/
def cfgA : Config :=
  { initial_capital := 1000
    position_size_percent := 1/2
    fixed_commission := 0
    variable_fee := 0
    bid_ask_spread := 0 }

/-- Spec Scenario A/B trade: one long trade, entry 100 on day 1, exit 110 on
day 2. -/
def tradeA : Trade :=
  { entry_date := 1
    entry_price := 100
    exit_date := 2
    exit_price := 110
    position_type := PositionType.long }

/-- Spec Scenario B configuration: Scenario A with fixed_commission 600. -/
def cfgB : Config := { cfgA with fixed_commission := 600 }

/-- Configuration with a proportional fee, to make committed position sizes
visible in the per-trade cost records. -/
def cfgC : Config :=
  { initial_capital := 1000
    position_size_percent := 1/2
    fixed_commission := 0
    variable_fee := 1/10
    bid_ask_spread := 0 }

/-- Row 0 of the entry-date-tie table: enters day 1, exits day 5. -/
def tC0 : Trade :=
  { entry_date := 1
    entry_price := 100
    exit_date := 5
    exit_price := 100
    position_type := PositionType.long }

/-- Row 1 of the entry-date-tie table: enters day 1 as well, exits day 2. -/
def tC1 : Trade :=
  { entry_date := 1
    entry_price := 100
    exit_date := 2
    exit_price := 100
    position_type := PositionType.long }

/-- A well-formed companion trade: enters day 1, exits day 5, flat price. -/
def t0n : Trade :=
  { entry_date := 1
    entry_price := 100
    exit_date := 5
    exit_price := 100
    position_type := PositionType.long }

/-- An inconsistent row: exit_date 1 lies before entry_date 3. -/
def tBad : Trade :=
  { entry_date := 3
    entry_price := 100
    exit_date := 1
    exit_price := 100
    position_type := PositionType.long }

/-- An inconsistent row: negative entry and exit prices. -/
def tNeg : Trade :=
  { entry_date := 2
    entry_price := -100
    exit_date := 4
    exit_price := -90
    position_type := PositionType.long }

/-- Configuration whose flat fee equals the initial capital, so the sole
trade is skipped at the entry-cost gate. -/
def cfg5 : Config := { cfgA with fixed_commission := 1000 }

/-- Engine output on Scenario A, written out. -/
def outA : EngineOutput :=
  { ts_data :=
      [{ date := 1, available_capital := 500, invested_capital := 500,
         total_capital := 1000, daily_pnl := 0, daily_costs := 0,
         active_positions := 1, cumulative_pnl := 0, cumulative_costs := 0,
         net_performance := 0, performance_pct := 0 },
       { date := 2, available_capital := 1050, invested_capital := 0,
         total_capital := 1050, daily_pnl := 50, daily_costs := 0,
         active_positions := 0, cumulative_pnl := 50, cumulative_costs := 0,
         net_performance := 50, performance_pct := 1/20 }]
    trade_performances :=
      [{ trade_id := 0, raw_performance := 1/10, cost_impact := 0,
         net_performance := 1/10 }]
    trade_costs :=
      [{ trade_id := 0, entry := { commission := 0, var_fee := 0, spread := 0 },
         exit := { commission := 0, var_fee := 0, spread := 0 }, total := 0 }] }

/-- Day-1 row of the engine output on Scenario B: the trade is committed and
available capital is already negative. -/
def rowB1 : DayRow :=
  { date := 1, available_capital := -100, invested_capital := 500,
    total_capital := 400, daily_pnl := 0, daily_costs := 600,
    active_positions := 1, cumulative_pnl := 0, cumulative_costs := 600,
    net_performance := -600, performance_pct := -3/5 }

/-- Day-2 row of the engine output on Scenario B: the exit realizes pnl 50. -/
def rowB2 : DayRow :=
  { date := 2, available_capital := -150, invested_capital := 0,
    total_capital := -150, daily_pnl := 50, daily_costs := 600,
    active_positions := 0, cumulative_pnl := 50, cumulative_costs := 1200,
    net_performance := -1150, performance_pct := -23/20 }

/-- Engine output on Scenario B, written out. -/
def outB : EngineOutput :=
  { ts_data := [rowB1, rowB2]
    trade_performances :=
      [{ trade_id := 0, raw_performance := 1/10, cost_impact := 12/5,
         net_performance := -23/10 }]
    trade_costs :=
      [{ trade_id := 0,
         entry := { commission := 600, var_fee := 0, spread := 0 },
         exit := { commission := 600, var_fee := 0, spread := 0 },
         total := 1200 }] }

/-- Capital chaining of a snapshot list: starting from a given total, each
snapshot's total_capital equals the previous total plus its daily_pnl
minus its daily_costs. -/
def ChainsFrom : Rat → List Snapshot → Prop
  | _, [] => True
  | a, snap :: rest =>
      snap.total_capital = a + snap.daily_pnl - snap.daily_costs ∧
      ChainsFrom snap.total_capital rest

/-- One-to-one pairing of the per-trade performance records with the
per-trade cost records, in which every performance record's cost_impact
is its paired record's total costs divided by the nominal basis
initial_capital * position_size_percent, and net_performance is
raw_performance minus cost_impact. -/
def PerfCostAligned (config : Config) :
    List TradePerformance → List TradeCost → Prop
  | [], [] => True
  | p :: ps, c :: cs =>
      (p.cost_impact =
         c.total / (config.initial_capital * config.position_size_percent) ∧
       p.net_performance = p.raw_performance - p.cost_impact) ∧
      PerfCostAligned config ps cs
  | _, _ => False

/-! Theorems for the claims. -/

/-- C8: for all inputs (in particular all non-negative ones) and every
configuration, calculate_trading_costs returns exactly the pair of
fee formulas; as a Lean function it is total and pure. -/
theorem calculate_trading_costs_spec :
    ∀ (position_size exit_value : Rat) (config : Config),
      calculate_trading_costs position_size exit_value config =
        (config.fixed_commission + position_size * config.variable_fee +
           position_size * config.bid_ask_spread,
         config.fixed_commission + exit_value * config.variable_fee +
           exit_value * config.bid_ask_spread) := by
  intro position_size exit_value config
  rfl

/-- C6: on Scenario A the engine opens the position with position_size 500
and units 5 (leaving available capital 500), and the produced timeseries
and trade records show daily pnl 50 on day 2, available capital 1050
after the exit, and net_performance = raw_performance = 1/10. -/
theorem scenarioA_engine_results :
    (runEntries cfgA (dayEntriesOf (sortRows [tradeA]) 1) (initState cfgA) 0).map
        (fun p => (p.1.active_positions.map
            (fun ap => (ap.1, ap.2.units, ap.2.position_size)),
          p.1.available_capital, p.2)) =
      some ([(0, 5, 500)], 500, 0) ∧
    calculate_trade_performance_timeseries [tradeA] cfgA = some outA := by
  constructor
  · norm_num [runEntries, dayEntriesOf, sortRows, initState, calculate_trading_costs,
      List.insertionSort, List.orderedInsert, List.filter, List.enum, List.enumFrom,
      min_def, cfgA, tradeA]
  · norm_num [calculate_trade_performance_timeseries, runSimulation, runDays,
      runEntries, runExits, dayEntriesOf, dayExitsOf, sortRows, dateRange,
      minEntryDate, maxExitDate, initState, addCumulative, calculate_trading_costs,
      eraseKey, CostBreakdown.total, List.insertionSort, List.orderedInsert,
      lookupPos, List.filter, List.range, List.enum, List.enumFrom, min_def,
      cfgA, tradeA, outA]

/-- C2: the metrics aggregator invoked with zero trade performance records
evaluates to none (the source raises ZeroDivisionError computing win_rate
and avg_cost_per_trade), and the engine on the empty trade table also
evaluates to none (pandas date_range raises on NaT bounds) instead of
returning an empty-state report. -/
theorem empty_trades_fault :
    ∀ (config : Config) (ts_data : List DayRow) (trade_costs : List TradeCost),
      calculate_trade_performance_timeseries [] config = none ∧
      calculate_performance_metrics ts_data [] trade_costs config = none := by
  intro config ts_data trade_costs
  constructor
  · simp [calculate_trade_performance_timeseries, runSimulation]
  · cases ts_data with
    | nil => simp [calculate_performance_metrics]
    | cons r rest => simp [calculate_performance_metrics]

/-- C1 (counterexample): Scenario B does not behave as claimed. The entry
gate compares the 600 fee against the full available capital 1000, so
the trade is not skipped: day 2 has daily_pnl 50, refuting "daily_pnl
equals 0 for every day and total_trades equals 0". -/
theorem scenarioB_claim_false :
    ¬ (∀ out, calculate_trade_performance_timeseries [tradeA] cfgB = some out →
        (∀ row ∈ out.ts_data, row.daily_pnl = 0) ∧
        ∀ rep, calculate_performance_metrics out.ts_data out.trade_performances
            out.trade_costs cfgB = some rep → rep.total_trades = 0) := by
  intro h
  have hrun : calculate_trade_performance_timeseries [tradeA] cfgB = some outB := by
    norm_num [calculate_trade_performance_timeseries, runSimulation, runDays,
      runEntries, runExits, dayEntriesOf, dayExitsOf, sortRows, dateRange,
      minEntryDate, maxExitDate, initState, addCumulative, calculate_trading_costs,
      eraseKey, CostBreakdown.total, List.insertionSort, List.orderedInsert,
      lookupPos, List.filter, List.range, List.enum, List.enumFrom, min_def,
      cfgB, cfgA, tradeA, outB, rowB1, rowB2]
  have hzero := (h outB hrun).1 rowB2 (by simp [outB])
  norm_num [rowB2] at hzero

/-- C1 (amended): on Scenario B the trade is committed, not skipped: the
engine returns the Scenario B output (daily_pnl 0 then 50, entry and
exit commissions of 600 each), the internal skipped list is empty, and
the performance report counts total_trades = 1. -/
theorem scenarioB_trade_committed :
    calculate_trade_performance_timeseries [tradeA] cfgB = some outB ∧
    (runSimulation [tradeA] cfgB).map (fun r => r.state.skipped_trades) =
      some [] ∧
    ((calculate_trade_performance_timeseries [tradeA] cfgB).bind
        (fun out => calculate_performance_metrics out.ts_data
          out.trade_performances out.trade_costs cfgB)).map
        (fun rep => rep.total_trades) = some 1 := by
  refine ⟨?_, ?_, ?_⟩ <;>
    norm_num [calculate_trade_performance_timeseries, runSimulation, runDays,
      runEntries, runExits, dayEntriesOf, dayExitsOf, sortRows, dateRange,
      minEntryDate, maxExitDate, initState, addCumulative, calculate_trading_costs,
      eraseKey, CostBreakdown.total, List.insertionSort, List.orderedInsert,
      lookupPos, List.filter, List.range, List.enum, List.enumFrom, min_def,
      calculate_performance_metrics, _calculate_metrics, listSum, listMax, listMin,
      cfgB, cfgA, tradeA, outB, rowB1, rowB2]
  exact ⟨_, ⟨by simp, rfl⟩, rfl⟩

/-- C10: with the valid Scenario B configuration the entry gate (which
compares only the entry costs against available capital) admits a trade
whose commitment deducts position_size + entry_costs, driving
available_capital strictly negative in the emitted snapshots. -/
theorem entry_gate_negative_capital :
    0 < cfgB.initial_capital ∧ 0 < cfgB.position_size_percent ∧
    cfgB.position_size_percent < 1 ∧ 0 ≤ cfgB.fixed_commission ∧
    ∃ out, calculate_trade_performance_timeseries [tradeA] cfgB = some out ∧
      out.trade_performances.length = 1 ∧
      ∃ row ∈ out.ts_data, row.available_capital < 0 := by
  refine ⟨by norm_num [cfgB, cfgA], by norm_num [cfgB, cfgA],
    by norm_num [cfgB, cfgA], by norm_num [cfgB, cfgA], outB, ?_,
    by norm_num [outB], rowB1, by simp [outB], by norm_num [rowB1]⟩
  norm_num [calculate_trade_performance_timeseries, runSimulation, runDays,
    runEntries, runExits, dayEntriesOf, dayExitsOf, sortRows, dateRange,
    minEntryDate, maxExitDate, initState, addCumulative, calculate_trading_costs,
    eraseKey, CostBreakdown.total, List.insertionSort, List.orderedInsert,
    lookupPos, List.filter, List.range, List.enum, List.enumFrom, min_def,
    cfgB, cfgA, tradeA, outB, rowB1, rowB2]

/-- C5: a trade skipped for insufficient capital does not fail the run, and
the skip is recorded in the internal skipped_trades list (here [0]); but
the value returned to the caller carries only the timeseries and the two
per-trade record lists, all of which are empty or inactive here, so the
skipped-trade count never reaches the caller. -/
theorem skipped_count_not_returned :
    (runSimulation [tradeA] cfg5).map (fun r => r.state.skipped_trades) =
      some [0] ∧
    (calculate_trade_performance_timeseries [tradeA] cfg5).map
        (fun out => (out.trade_performances, out.trade_costs,
          out.ts_data.map (fun row => (row.available_capital,
            row.active_positions, row.daily_costs)))) =
      some ([], [], [(1000, 0, 0), (1000, 0, 0)]) := by
  constructor <;>
    norm_num [calculate_trade_performance_timeseries, runSimulation, runDays,
      runEntries, runExits, dayEntriesOf, dayExitsOf, sortRows, dateRange,
      minEntryDate, maxExitDate, initState, addCumulative, calculate_trading_costs,
      eraseKey, CostBreakdown.total, List.insertionSort, List.orderedInsert,
      lookupPos, List.filter, List.range, List.enum, List.enumFrom, min_def,
      cfg5, cfgA, tradeA]

/-- C4: the engine does not reject inconsistent rows. A row with exit_date
before entry_date is committed at its entry and silently never closed
(capital 250 stays invested, one position left open, nothing skipped);
a row with negative prices is fully executed and lands in the
performance records. In neither run is any rejected-row count produced. -/
theorem invalid_rows_not_rejected :
    (runSimulation [t0n, tBad] cfgA).map (fun r =>
        (r.state.skipped_trades, r.state.active_positions.length,
         r.state.trade_performances.length, r.state.invested_capital,
         (lookupPos 1 r.state.active_positions).isSome)) =
      some ([], 1, 1, 250, true) ∧
    (runSimulation [t0n, tNeg] cfgA).map (fun r =>
        (r.state.skipped_trades,
         r.state.trade_performances.map
           (fun t => (t.trade_id, t.raw_performance)))) =
      some ([], [(1, -1/10), (0, 0)]) := by
  constructor <;>
    norm_num [runSimulation, runDays, runEntries, runExits, dayEntriesOf,
      dayExitsOf, sortRows, dateRange, minEntryDate, maxExitDate, initState,
      calculate_trading_costs, eraseKey, CostBreakdown.total, List.insertionSort,
      List.orderedInsert, lookupPos, List.filter, List.range, List.enum,
      List.enumFrom, min_def, cfgA, t0n, tBad, tNeg]

/-- C3 (counterexample): two trades share entry day 1, row 0 exiting day 5
and row 1 exiting day 2. The engine sizes row 1 first (entry variable fee
50 against the full capital) and row 0 second (fee 45/2 against the
depleted capital), while the row-order engine the claim describes sizes
row 0 first; the two outputs differ. -/
theorem same_day_order_claim_false :
    (calculate_trade_performance_timeseries [tC0, tC1] cfgC).map
        (fun out => out.trade_costs.map (fun t => (t.trade_id, t.entry.var_fee))) =
      some [(1, 50), (0, 45/2)] ∧
    (calculate_trade_performance_timeseries_roworder [tC0, tC1] cfgC).map
        (fun out => out.trade_costs.map (fun t => (t.trade_id, t.entry.var_fee))) =
      some [(1, 45/2), (0, 50)] ∧
    calculate_trade_performance_timeseries [tC0, tC1] cfgC ≠
      calculate_trade_performance_timeseries_roworder [tC0, tC1] cfgC := by
  have h1 : (calculate_trade_performance_timeseries [tC0, tC1] cfgC).map
      (fun out => out.trade_costs.map (fun t => (t.trade_id, t.entry.var_fee))) =
      some [(1, 50), (0, 45/2)] := by
    norm_num [calculate_trade_performance_timeseries, runSimulation, runDays,
      runEntries, runExits, dayEntriesOf, dayExitsOf, sortRows, dateRange,
      minEntryDate, maxExitDate, initState, addCumulative, calculate_trading_costs,
      eraseKey, CostBreakdown.total, List.insertionSort, List.orderedInsert,
      lookupPos, List.filter, List.range, List.enum, List.enumFrom, min_def,
      cfgC, tC0, tC1]
  have h2 : (calculate_trade_performance_timeseries_roworder [tC0, tC1] cfgC).map
      (fun out => out.trade_costs.map (fun t => (t.trade_id, t.entry.var_fee))) =
      some [(1, 45/2), (0, 50)] := by
    norm_num [calculate_trade_performance_timeseries_roworder,
      runSimulation_roworder, runDays, runEntries, runExits, dayEntriesOf,
      dayExitsOf, dateRange, minEntryDate, maxExitDate, initState, addCumulative,
      calculate_trading_costs, eraseKey, CostBreakdown.total, lookupPos,
      List.filter, List.range, List.enum, List.enumFrom, min_def, cfgC, tC0, tC1]
  refine ⟨h1, h2, fun heq => ?_⟩
  rw [heq] at h1
  rw [h1] at h2
  norm_num at h2

/-- C3 (amended): the engine pre-sorts the table by (entry_date, exit_date)
with a stable sort, so the entries it processes on any given day are
ordered by ascending exit_date, not by original row position; rows equal
in both entry_date and exit_date keep their original relative order. -/
theorem day_entries_sorted_by_exit_date (df : List Trade) (date : Int) :
    ((dayEntriesOf (sortRows df) date).Pairwise
      (fun a b => a.2.exit_date ≤ b.2.exit_date)) ∧
    ∀ a b : Nat × Trade, List.Sublist [a, b] df.enum →
      a.2.entry_date = b.2.entry_date → a.2.exit_date = b.2.exit_date →
      List.Sublist [a, b] (sortRows df) := by
  constructor
  · have hs : (sortRows df).Pairwise rowLe := List.sorted_insertionSort rowLe df.enum
    have hf : (dayEntriesOf (sortRows df) date).Pairwise rowLe :=
      List.Pairwise.sublist (List.filter_sublist _) hs
    refine List.Pairwise.imp_of_mem ?_ hf
    intro a b ha hb hab
    simp only [dayEntriesOf, List.mem_filter, decide_eq_true_eq] at ha hb
    unfold rowLe at hab
    omega
  · intro a b hab he hx
    refine List.pair_sublist_insertionSort ?_ hab
    unfold rowLe
    omega

/-- C3 witness: the stability part applied to a table of two rows equal in
both keys, which therefore keep their original relative order in the
sorted table. -/
theorem day_entries_sorted_by_exit_date_witness :
    List.Sublist [(0, tC0), (1, tC0)] (sortRows [tC0, tC0]) :=
  (day_entries_sorted_by_exit_date [tC0, tC0] 1).2 (0, tC0) (1, tC0)
    (by
      have h : ([tC0, tC0].enum) = [(0, tC0), (1, tC0)] := by
        norm_num [List.enum, List.enumFrom]
      rw [h])
    rfl rfl

/-- Entry loop accounting: available + invested + accumulated entry costs is
preserved (commits move position_size from available to invested and pay
entry_costs into the accumulator; skips change nothing). -/
theorem runEntries_capital (config : Config) :
    ∀ (l : List (Nat × Trade)) (s : SimState) (dec dec' : Rat) (s' : SimState),
      runEntries config l s dec = some (s', dec') →
      s'.available_capital + s'.invested_capital + dec' =
        s.available_capital + s.invested_capital + dec := by
  intro l
  induction l with
  | nil =>
    intro s dec dec' s' h
    simp only [runEntries, Option.some.injEq, Prod.mk.injEq] at h
    obtain ⟨rfl, rfl⟩ := h
    rfl
  | cons hd tl ih =>
    intro s dec dec' s' h
    simp only [runEntries] at h
    split at h
    · have := ih _ _ _ _ h
      simpa using this
    · split at h
      · exact absurd h (by simp)
      · split at h
        · have := ih _ _ _ _ h
          simpa using this
        · have := ih _ _ _ _ h
          simp only at this
          rw [this]
          ring

/-- Exit loop accounting: available + invested + accumulated exit costs
minus accumulated pnl is preserved (each close returns position_size plus
pnl minus exit_costs to available capital). -/
theorem runExits_capital (config : Config) :
    ∀ (l : List (Nat × Trade)) (s : SimState) (dxc dpnl dxc' dpnl' : Rat)
      (s' : SimState),
      runExits config l s dxc dpnl = some (s', dxc', dpnl') →
      s'.available_capital + s'.invested_capital + dxc' - dpnl' =
        s.available_capital + s.invested_capital + dxc - dpnl := by
  intro l
  induction l with
  | nil =>
    intro s dxc dpnl dxc' dpnl' s' h
    simp only [runExits, Option.some.injEq, Prod.mk.injEq] at h
    obtain ⟨rfl, rfl, rfl⟩ := h
    rfl
  | cons hd tl ih =>
    intro s dxc dpnl dxc' dpnl' s' h
    simp only [runExits] at h
    split at h
    · exact ih _ _ _ _ _ _ h
    · split at h
      · exact absurd h (by simp)
      · have := ih _ _ _ _ _ _ h
        simp only at this
        rw [this]
        ring

/-- Day loop accounting: the snapshots appended by runDays chain from the
total capital of the starting state, each day moving the total by its
daily_pnl minus its daily_costs. -/
theorem runDays_chains (config : Config) (rows : List (Nat × Trade)) :
    ∀ (days : List Int) (s : SimState) (acc : List Snapshot) (s' : SimState)
      (out : List Snapshot),
      runDays config rows days s acc = some (s', out) →
      ∃ tail, out = acc ++ tail ∧
        ChainsFrom (s.available_capital + s.invested_capital) tail := by
  intro days
  induction days with
  | nil =>
    intro s acc s' out h
    simp only [runDays, Option.some.injEq, Prod.mk.injEq] at h
    obtain ⟨rfl, rfl⟩ := h
    exact ⟨[], by simp, trivial⟩
  | cons d rest ih =>
    intro s acc s' out h
    simp only [runDays] at h
    split at h
    · exact absurd h (by simp)
    · rename_i s1 dec hE
      split at h
      · exact absurd h (by simp)
      · rename_i s2 dxc dpnl hX
        obtain ⟨tail, htail, hchain⟩ := ih _ _ _ _ h
        have e1 := runEntries_capital config _ _ _ _ _ hE
        have e2 := runExits_capital config _ _ _ _ _ _ _ hX
        refine ⟨{ date := d, available_capital := s2.available_capital,
                  invested_capital := s2.invested_capital,
                  total_capital := s2.available_capital + s2.invested_capital,
                  daily_pnl := dpnl, daily_costs := dec + dxc,
                  active_positions := s2.active_positions.length } :: tail,
          by rw [htail]; simp, ?_⟩
        constructor
        · dsimp only
          linarith
        · simpa using hchain

/-- Cumulative pass: if the snapshot totals chain from initial_capital plus
the incoming running sums, every produced row satisfies the closed-form
identity between total_capital and the cumulative columns. -/
theorem addCumulative_rows (config : Config) :
    ∀ (l : List Snapshot) (cp cc : Rat),
      ChainsFrom (config.initial_capital + cp - cc) l →
      ∀ row ∈ addCumulative config l cp cc,
        row.total_capital =
          config.initial_capital + row.cumulative_pnl - row.cumulative_costs ∧
        row.net_performance = row.cumulative_pnl - row.cumulative_costs := by
  intro l
  induction l with
  | nil =>
    intro cp cc _ row hrow
    simp [addCumulative] at hrow
  | cons snap rest ih =>
    intro cp cc hch row hrow
    obtain ⟨h1, h2⟩ := hch
    simp only [addCumulative, List.mem_cons] at hrow
    rcases hrow with hrow | hrow
    · subst hrow
      constructor
      · dsimp only
        linarith
      · dsimp only
    · have hnext :
          ChainsFrom (config.initial_capital + (cp + snap.daily_pnl) -
            (cc + snap.daily_costs)) rest := by
        have he : snap.total_capital =
            config.initial_capital + (cp + snap.daily_pnl) -
              (cc + snap.daily_costs) := by linarith
        rw [← he]
        exact h2
      exact ih _ _ hnext row hrow

/-- Shape of a successful run of the simulation wrapper: the day loop ran on
the sorted table over the full date range from the initial state. -/
theorem runSimulation_runDays (df : List Trade) (config : Config) (r : SimResult) :
    runSimulation df config = some r →
    runDays config (sortRows df) (dateRange (minEntryDate df) (maxExitDate df))
      (initState config) [] = some (r.state, r.snapshots) := by
  intro h
  unfold runSimulation at h
  split at h
  · exact absurd h (by simp)
  · split at h
    · exact absurd h (by simp)
    · rename_i s snaps hd
      simp only [Option.some.injEq] at h
      rw [← h]
      exact hd

/-- Shape of a successful engine run: it wraps a successful simulation and
adds the cumulative columns to its snapshots. -/
theorem engine_some_shape (df : List Trade) (config : Config) (out : EngineOutput) :
    calculate_trade_performance_timeseries df config = some out →
    ∃ r, runSimulation df config = some r ∧
      out.ts_data = addCumulative config r.snapshots 0 0 ∧
      out.trade_performances = r.state.trade_performances ∧
      out.trade_costs = r.state.trade_costs := by
  intro h
  unfold calculate_trade_performance_timeseries at h
  split at h
  · exact absurd h (by simp)
  · rename_i r hr
    split at h
    · exact absurd h (by simp)
    · simp only [Option.some.injEq] at h
      exact ⟨r, hr, by rw [← h], by rw [← h], by rw [← h]⟩

/-- C9: for every successful engine run and every emitted day row,
total_capital equals initial_capital plus cumulative_pnl minus
cumulative_costs, that is, initial_capital plus the day's running
net_performance: entries lower the total by exactly their entry costs and
exits move it by exactly pnl minus exit costs. -/
theorem total_capital_invariant :
    ∀ (df : List Trade) (config : Config) (out : EngineOutput),
      calculate_trade_performance_timeseries df config = some out →
      ∀ row ∈ out.ts_data,
        row.total_capital =
          config.initial_capital + row.cumulative_pnl - row.cumulative_costs ∧
        row.total_capital = config.initial_capital + row.net_performance := by
  intro df config out h row hrow
  obtain ⟨r, hr, hts, _, _⟩ := engine_some_shape df config out h
  have hdays := runSimulation_runDays df config r hr
  obtain ⟨tail, htail, hchain⟩ :=
    runDays_chains config (sortRows df) _ _ _ _ _ hdays
  have hchain0 : ChainsFrom (config.initial_capital + 0 - 0) r.snapshots := by
    rw [htail]
    simpa [initState] using hchain
  have hmem : row ∈ addCumulative config r.snapshots 0 0 := by
    rw [← hts]
    exact hrow
  have hres := addCumulative_rows config r.snapshots 0 0 hchain0 row hmem
  refine ⟨hres.1, ?_⟩
  rw [hres.2]
  linarith [hres.1]

/-- C9 witness: the invariant instantiated on Scenario A at its first row. -/
theorem total_capital_invariant_witness :
    (outA.ts_data.getD 0 default).total_capital =
      cfgA.initial_capital + (outA.ts_data.getD 0 default).cumulative_pnl -
        (outA.ts_data.getD 0 default).cumulative_costs ∧
    (outA.ts_data.getD 0 default).total_capital =
      cfgA.initial_capital + (outA.ts_data.getD 0 default).net_performance :=
  total_capital_invariant [tradeA] cfgA outA
    (by norm_num [calculate_trade_performance_timeseries, runSimulation, runDays,
      runEntries, runExits, dayEntriesOf, dayExitsOf, sortRows, dateRange,
      minEntryDate, maxExitDate, initState, addCumulative, calculate_trading_costs,
      eraseKey, CostBreakdown.total, List.insertionSort, List.orderedInsert,
      lookupPos, List.filter, List.range, List.enum, List.enumFrom, min_def,
      cfgA, tradeA, outA])
    (outA.ts_data.getD 0 default) (by simp [outA])

/-- Appending one aligned record pair preserves the pairing invariant. -/
theorem PerfCostAligned.append_pair (config : Config) :
    ∀ (ps : List TradePerformance) (cs : List TradeCost)
      (p : TradePerformance) (c : TradeCost),
      PerfCostAligned config ps cs →
      p.cost_impact =
        c.total / (config.initial_capital * config.position_size_percent) →
      p.net_performance = p.raw_performance - p.cost_impact →
      PerfCostAligned config (ps ++ [p]) (cs ++ [c]) := by
  intro ps
  induction ps with
  | nil =>
    intro cs p c hal h1 h2
    cases cs with
    | nil => exact ⟨⟨h1, h2⟩, trivial⟩
    | cons c0 cs0 => exact absurd hal (by simp [PerfCostAligned])
  | cons p0 ps0 ih =>
    intro cs p c hal h1 h2
    cases cs with
    | nil => exact absurd hal (by simp [PerfCostAligned])
    | cons c0 cs0 =>
      obtain ⟨hhead, htail⟩ := hal
      exact ⟨hhead, ih cs0 p c htail h1 h2⟩

/-- The entry loop never touches the two per-trade output lists. -/
theorem runEntries_keeps_records (config : Config) :
    ∀ (l : List (Nat × Trade)) (s : SimState) (dec dec' : Rat) (s' : SimState),
      runEntries config l s dec = some (s', dec') →
      s'.trade_performances = s.trade_performances ∧
        s'.trade_costs = s.trade_costs := by
  intro l
  induction l with
  | nil =>
    intro s dec dec' s' h
    simp only [runEntries, Option.some.injEq, Prod.mk.injEq] at h
    obtain ⟨rfl, rfl⟩ := h
    exact ⟨rfl, rfl⟩
  | cons hd tl ih =>
    intro s dec dec' s' h
    simp only [runEntries] at h
    split at h
    · simpa using ih _ _ _ _ h
    · split at h
      · exact absurd h (by simp)
      · split at h
        · simpa using ih _ _ _ _ h
        · simpa using ih _ _ _ _ h

/-- The exit loop appends performance and cost records in lockstep, always
with cost_impact = total / (initial_capital * position_size_percent) and
net = raw - cost_impact, so it preserves the pairing invariant. -/
theorem runExits_aligned (config : Config) :
    ∀ (l : List (Nat × Trade)) (s : SimState) (dxc dpnl dxc' dpnl' : Rat)
      (s' : SimState),
      runExits config l s dxc dpnl = some (s', dxc', dpnl') →
      PerfCostAligned config s.trade_performances s.trade_costs →
      PerfCostAligned config s'.trade_performances s'.trade_costs := by
  intro l
  induction l with
  | nil =>
    intro s dxc dpnl dxc' dpnl' s' h hal
    simp only [runExits, Option.some.injEq, Prod.mk.injEq] at h
    obtain ⟨rfl, rfl, rfl⟩ := h
    exact hal
  | cons hd tl ih =>
    intro s dxc dpnl dxc' dpnl' s' h hal
    simp only [runExits] at h
    split at h
    · exact ih _ _ _ _ _ _ h hal
    · split at h
      · exact absurd h (by simp)
      · refine ih _ _ _ _ _ _ h ?_
        dsimp only
        exact PerfCostAligned.append_pair config _ _ _ _ hal rfl rfl

/-- The day loop preserves the pairing invariant of the output lists. -/
theorem runDays_aligned (config : Config) (rows : List (Nat × Trade)) :
    ∀ (days : List Int) (s : SimState) (acc : List Snapshot) (s' : SimState)
      (out : List Snapshot),
      runDays config rows days s acc = some (s', out) →
      PerfCostAligned config s.trade_performances s.trade_costs →
      PerfCostAligned config s'.trade_performances s'.trade_costs := by
  intro days
  induction days with
  | nil =>
    intro s acc s' out h hal
    simp only [runDays, Option.some.injEq, Prod.mk.injEq] at h
    obtain ⟨rfl, rfl⟩ := h
    exact hal
  | cons d rest ih =>
    intro s acc s' out h hal
    simp only [runDays] at h
    split at h
    · exact absurd h (by simp)
    · rename_i s1 dec hE
      split at h
      · exact absurd h (by simp)
      · rename_i s2 dxc dpnl hX
        obtain ⟨hp, hc⟩ := runEntries_keeps_records config _ _ _ _ _ hE
        have hal1 : PerfCostAligned config s1.trade_performances s1.trade_costs := by
          rw [hp, hc]
          exact hal
        exact ih _ _ _ _ h (runExits_aligned config _ _ _ _ _ _ _ hX hal1)

/-- C7: every closed trade's recorded cost_impact is its total recorded
costs divided by the nominal basis initial_capital *
position_size_percent (not the actually committed position_size), and
its net_performance is raw_performance minus cost_impact; the
performance and cost record lists are paired one to one. -/
theorem cost_impact_nominal_basis :
    ∀ (df : List Trade) (config : Config) (out : EngineOutput),
      calculate_trade_performance_timeseries df config = some out →
      PerfCostAligned config out.trade_performances out.trade_costs := by
  intro df config out h
  obtain ⟨r, hr, _, hps, hcs⟩ := engine_some_shape df config out h
  have hdays := runSimulation_runDays df config r hr
  rw [hps, hcs]
  exact runDays_aligned config (sortRows df) _ _ _ _ _ hdays trivial

/-- C7 witness: the pairing invariant instantiated on Scenario A. -/
theorem cost_impact_nominal_basis_witness :
    PerfCostAligned cfgA outA.trade_performances outA.trade_costs :=
  cost_impact_nominal_basis [tradeA] cfgA outA
    (by norm_num [calculate_trade_performance_timeseries, runSimulation, runDays,
      runEntries, runExits, dayEntriesOf, dayExitsOf, sortRows, dateRange,
      minEntryDate, maxExitDate, initState, addCumulative, calculate_trading_costs,
      eraseKey, CostBreakdown.total, List.insertionSort, List.orderedInsert,
      lookupPos, List.filter, List.range, List.enum, List.enumFrom, min_def,
      cfgA, tradeA, outA])

end Backtester
